import Mathlib

/-!
# Links Explorer — verification of the filter/sort/catalog engine

A shallow embedding of the record browser's core logic:

* `src/app.py` — current app: `load_data`, `matches_filters`, the
  `sort_instructions` construction and the sorting loop;
* `src/previous/LinkBoard_v1.py` — previous version: `load_data`,
  `save_data`, and its `matches_filters` tag criterion.

Records are flat association lists of field name to scalar value, mirroring
the JSON objects the app loads (`json.load` of an array of flat objects).
Python `int(...)` / `float(...)` coercion with the `except ValueError`
fallback is modelled by total parsers returning `Option`, with `.getD 0`
for the fallback.
-/

/-- A scalar field value of a record: the JSON documents the app consumes
hold integers and strings (floats written in the file appear as decimal
strings in the claims' inputs, so they are carried as strings here). -/
inductive Val where
  | vInt : Int → Val
  | vStr : String → Val
deriving DecidableEq

/-- A record is a flat mapping of field names to values, in file order
(Python dicts preserve insertion order). -/
abbrev Record := List (String × Val)

/-- `movie.get(key, default)`: the first binding of `key`, or `default`. -/
def getVal : Record → String → Val → Val
  | [], _, d => d
  | (k, v) :: rest, key, d => if k = key then v else getVal rest key d

/-- Python `str(...)` on a scalar value. -/
def pyStr : Val → String
  | .vInt n => toString n
  | .vStr s => s

/-- Characters Python's `str.strip()` removes (the ASCII whitespace set;
the app's data is ASCII). -/
def pyStripL (l : List Char) : List Char :=
  ((l.dropWhile Char.isWhitespace).reverse.dropWhile Char.isWhitespace).reverse

/-- Python `str.lower()`, character by character (ASCII). -/
def pyLowerL (l : List Char) : List Char :=
  l.map Char.toLower

/-- Python `str.split(",")` accumulator: splits on every comma, keeping
empty pieces (`"".split(",") == [""]`). -/
def splitCommaAux : List Char → List Char → List (List Char)
  | [], acc => [acc.reverse]
  | c :: rest, acc =>
      if c = ',' then acc.reverse :: splitCommaAux rest []
      else splitCommaAux rest (c :: acc)

/-- Python `s.split(",")`. -/
def pySplitComma (s : String) : List (List Char) :=
  splitCommaAux s.toList []

/-- The numeric value of a digit string (most significant first). -/
def digitsVal (l : List Char) : Nat :=
  l.foldl (fun a c => a * 10 + (c.toNat - 48)) 0

/-- A non-empty all-digit run, or nothing. -/
def parseNatDigits (l : List Char) : Option Nat :=
  if !l.isEmpty && l.all Char.isDigit then some (digitsVal l) else Option.none

/-- Python `int(s)` on a string: strip whitespace, optional sign, decimal
digits; anything else raises `ValueError`, modelled as `Option.none`
(digit-group underscores are not modelled — no catalog value uses them). -/
def pyIntParse (s : String) : Option Int :=
  match pyStripL s.toList with
  | '+' :: rest => (parseNatDigits rest).map (fun n => (n : Int))
  | '-' :: rest => (parseNatDigits rest).map (fun n => -(n : Int))
  | l => (parseNatDigits l).map (fun n => (n : Int))

/-- The unsigned part of Python `float(s)`: digits with an optional point,
valued exactly (rationals stand in for IEEE doubles; the catalog's rates
have at most one decimal digit, well within exact range). -/
def pyFloatCore (l : List Char) : Option ℚ :=
  let ip := l.takeWhile Char.isDigit
  let rest := l.dropWhile Char.isDigit
  match rest with
  | [] => if ip.isEmpty then Option.none else some ((digitsVal ip : ℚ))
  | '.' :: fr =>
      if fr.all Char.isDigit && !(ip.isEmpty && fr.isEmpty) then
        some ((digitsVal ip : ℚ) + (digitsVal fr : ℚ) / ((10 : ℚ) ^ fr.length))
      else Option.none
  | _ => Option.none

/-- Python `float(s)`: strip, optional sign, digits/point (exponent, `inf`
and `nan` forms are not modelled — no catalog value uses them). -/
def pyFloatParse (s : String) : Option ℚ :=
  match pyStripL s.toList with
  | '+' :: rest => pyFloatCore rest
  | '-' :: rest => (pyFloatCore rest).map (fun q => -q)
  | l => pyFloatCore l

/-- Python `int(value)` for the scalar values a record holds: an int is
itself, a string is parsed; `Option.none` models the `ValueError` branch. -/
def pyInt : Val → Option Int
  | .vInt n => some n
  | .vStr s => pyIntParse s

/-- Python `float(value)` likewise. -/
def pyFloat : Val → Option ℚ
  | .vInt n => some ((n : ℚ))
  | .vStr s => pyFloatParse s

/-- The six "other category" field names (`cat_fields` in `app.py`). -/
def cat_fields : List String :=
  ["cat_1", "cat_2", "cat_3", "cat_4", "cat_5", "cat_6"]

/-- The sidebar filter selections of `app.py`: two range sliders, five
multiselects and the comma-separated tag search box. -/
structure Criteria where
  duration_range : Int × Int
  rating_range : Int × Int
  core_cat_selected : List String
  cats_selected : List String
  actors_selected : List String
  studio_selected : List String
  positions_selected : List String
  tag_search : String

/-- `int(movie.get("duration", 0))` with the `except ValueError: duration = 0`
fallback. -/
def duration_of (m : Record) : Int :=
  (pyInt (getVal m "duration" (Val.vInt 0))).getD 0

/-- `duration_range[0] <= duration <= duration_range[1]`. -/
def duration_pass (c : Criteria) (m : Record) : Bool :=
  decide (c.duration_range.1 ≤ duration_of m ∧ duration_of m ≤ c.duration_range.2)

/-- `float(movie.get("rate", 0))` with the `except ValueError: rate = 0`
fallback. -/
def rate_of (m : Record) : ℚ :=
  (pyFloat (getVal m "rate" (Val.vInt 0))).getD 0

/-- `rating_range[0] <= rate <= rating_range[1]`. -/
def rating_pass (c : Criteria) (m : Record) : Bool :=
  decide ((c.rating_range.1 : ℚ) ≤ rate_of m ∧ rate_of m ≤ (c.rating_range.2 : ℚ))

/-- `if core_cat_selected and movie.get("core_cat", "") not in core_cat_selected`. -/
def core_pass (c : Criteria) (m : Record) : Bool :=
  c.core_cat_selected.isEmpty ||
    c.core_cat_selected.any (fun s => decide (getVal m "core_cat" (Val.vStr "") = Val.vStr s))

/-- `[str(movie.get(cat, "")).strip().lower() for cat in cat_fields]`. -/
def movie_cats (m : Record) : List (List Char) :=
  cat_fields.map (fun f => pyLowerL (pyStripL (pyStr (getVal m f (Val.vStr ""))).toList))

/-- `if cats_selected and not any(cat.lower() in movie_cats for cat in cats_selected)`. -/
def cats_pass (c : Criteria) (m : Record) : Bool :=
  c.cats_selected.isEmpty ||
    c.cats_selected.any (fun cat => (movie_cats m).any (fun mc => decide (mc = pyLowerL cat.toList)))

/-- `[movie.get("star_1", ""), movie.get("star_2", ""), movie.get("star_3", "")]`. -/
def movie_actors (m : Record) : List Val :=
  [getVal m "star_1" (Val.vStr ""), getVal m "star_2" (Val.vStr ""),
   getVal m "star_3" (Val.vStr "")]

/-- `if actors_selected and not all(actor in movie_actors for actor in actors_selected)`:
every selected actor must be one of the three star values. -/
def actors_pass (c : Criteria) (m : Record) : Bool :=
  c.actors_selected.isEmpty ||
    c.actors_selected.all (fun a => (movie_actors m).any (fun v => decide (v = Val.vStr a)))

/-- `[movie.get("pos_1", ""), movie.get("pos_2", ""), movie.get("pos_3", "")]`. -/
def movie_positions (m : Record) : List Val :=
  [getVal m "pos_1" (Val.vStr ""), getVal m "pos_2" (Val.vStr ""),
   getVal m "pos_3" (Val.vStr "")]

/-- `if positions_selected and not any(pos in movie_positions for pos in positions_selected)`:
some selected position must be one of the three position values. -/
def positions_pass (c : Criteria) (m : Record) : Bool :=
  c.positions_selected.isEmpty ||
    c.positions_selected.any (fun p => (movie_positions m).any (fun v => decide (v = Val.vStr p)))

/-- `if studio_selected and movie.get("studio", "") not in studio_selected`. -/
def studio_pass (c : Criteria) (m : Record) : Bool :=
  c.studio_selected.isEmpty ||
    c.studio_selected.any (fun s => decide (getVal m "studio" (Val.vStr "") = Val.vStr s))

/-- `isPrefixB n h`: `n` begins `h`. -/
def isPrefixB : List Char → List Char → Bool
  | [], _ => true
  | _ :: _, [] => false
  | a :: as, b :: bs => decide (a = b) && isPrefixB as bs

/-- Python's `needle in haystack` on strings: `n` occurs contiguously in `h`. -/
def isInfixB : List Char → List Char → Bool
  | n, [] => isPrefixB n []
  | n, c :: t => isPrefixB n (c :: t) || isInfixB n t

/-- `[t.strip().lower() for t in tag_search.split(",") if t.strip()]`
(current app: empty tokens are dropped). -/
def tag_tokens (q : String) : List (List Char) :=
  ((pySplitComma q).filter (fun t => !(pyStripL t).isEmpty)).map
    (fun t => pyLowerL (pyStripL t))

/-- `str(movie.get("general_tags", "")).lower()`. -/
def movie_tags (m : Record) : List Char :=
  pyLowerL (pyStr (getVal m "general_tags" (Val.vStr ""))).toList

/-- The tag criterion of `app.py`: guarded by `if tag_search:` (an empty
query passes), otherwise every token must occur in the record's tags. -/
def tag_pass (q : String) (m : Record) : Bool :=
  if q = "" then true
  else (tag_tokens q).all (fun t => isInfixB t (movie_tags m))

/-- `matches_filters` of `app.py`: the early returns become one conjunction,
in source order. -/
def matches_filters (c : Criteria) (m : Record) : Bool :=
  duration_pass c m && rating_pass c m && core_pass c m && cats_pass c m &&
    actors_pass c m && positions_pass c m && studio_pass c m && tag_pass c.tag_search m

/-- `filtered = list(filter(matches_filters, data))`. -/
def filtered (c : Criteria) (data : List Record) : List Record :=
  data.filter (matches_filters c)

/-- `[t.strip().lower() for t in tag_search.split(",")]`
(`LinkBoard_v1.py`: empty tokens are kept). -/
def tag_tokensV1 (q : String) : List (List Char) :=
  (pySplitComma q).map (fun t => pyLowerL (pyStripL t))

/-- The tag criterion of `LinkBoard_v1.py`. -/
def tag_passV1 (q : String) (m : Record) : Bool :=
  if q = "" then true
  else (tag_tokensV1 q).all (fun t => isInfixB t (movie_tags m))

/-- Strict lexicographic order on character lists. -/
def charListLt : List Char → List Char → Bool
  | [], [] => false
  | [], _ :: _ => true
  | _ :: _, [] => false
  | a :: as, b :: bs => if a = b then charListLt as bs else decide (a < b)

/-- The keyed comparison pandas uses for a `sort_values` pass on one column
of this catalog: integers numerically, strings lexicographically.
Modelled from the spec: "using a stable sort" — `DataFrame.sort_values`
is third-party library code, embedded here by its documented behaviour
(a comparison sort on the column's values; a mixed int/string column would
raise in pandas and is ordered arbitrarily here — no claim exercises one). -/
def valLe : Val → Val → Bool
  | .vInt a, .vInt b => decide (a ≤ b)
  | .vStr a, .vStr b => !charListLt b.toList a.toList
  | .vInt _, .vStr _ => true
  | .vStr _, .vInt _ => false

/-- Insert `a` into an already-sorted list, after every element it does not
strictly precede — the stable insertion step. -/
def insertStable (le : α → α → Bool) (a : α) : List α → List α
  | [] => [a]
  | b :: bs => if le a b then a :: b :: bs else b :: insertStable le a bs

/-- A stable comparison sort (insertion sort): equal-key elements keep their
input order. -/
def stableSortBy (le : α → α → Bool) : List α → List α
  | [] => []
  | a :: as => insertStable le a (stableSortBy le as)

/-- `df_filtered.sort_values(by=col_name, ascending=ascending)`.
Modelled from the spec: one stable sorting pass on the named column, in the
chosen direction (a descending pass keeps equal-key rows in input order). -/
def sort_values (col : String) (ascending : Bool) (df : List Record) : List Record :=
  stableSortBy
    (fun a b =>
      if ascending then valLe (getVal a col (Val.vInt 0)) (getVal b col (Val.vInt 0))
      else valLe (getVal b col (Val.vInt 0)) (getVal a col (Val.vInt 0)))
    df

/-- The `sort_instructions` list of `app.py`, built from the three radio
controls' selected strings ("Duration" | "Rating" | "None" for the priority,
"Max" | "Min" | "None" for each direction): primary field first, the other
second, a field skipped when its direction is "None"; no `else` branch —
a "None" priority builds nothing. -/
def sort_instructions (primary_sort dur_order rate_order : String) : List (String × Bool) :=
  if primary_sort = "Duration" then
    (if dur_order ≠ "None" then [("duration", decide (dur_order = "Min"))] else []) ++
    (if rate_order ≠ "None" then [("rate", decide (rate_order = "Min"))] else [])
  else if primary_sort = "Rating" then
    (if rate_order ≠ "None" then [("rate", decide (rate_order = "Min"))] else []) ++
    (if dur_order ≠ "None" then [("duration", decide (dur_order = "Min"))] else [])
  else []

/-- `for col_name, ascending in reversed(sort_instructions): df_filtered =
df_filtered.sort_values(...)`. -/
def apply_sorting (instrs : List (String × Bool)) (df : List Record) : List Record :=
  instrs.reverse.foldl (fun acc p => sort_values p.1 p.2 acc) df

/-- The whole sorting stage: build the instructions from the three controls,
then run the passes. -/
def sorted_output (primary_sort dur_order rate_order : String) (df : List Record) : List Record :=
  apply_sorting (sort_instructions primary_sort dur_order rate_order) df

/-- The JSON documents of the catalog file, abstracted over concrete
formatting (whitespace/indentation), which `json.load` discards. -/
inductive Json where
  | jInt : Int → Json
  | jStr : String → Json
  | jArr : List Json → Json
  | jObj : List (String × Json) → Json

/-- A record's scalar as JSON. -/
def val_toJson : Val → Json
  | .vInt n => .jInt n
  | .vStr s => .jStr s

/-- A record as a JSON object, fields in order. -/
def record_toJson (r : Record) : Json :=
  .jObj (r.map (fun p => (p.1, val_toJson p.2)))

/-- `save_data` of `LinkBoard_v1.py`: `json.dump(data, f, indent=2)` writes
the record list as a JSON array (the `indent=2` formatting is exactly what
the `Json` abstraction forgets). -/
def save_data (data : List Record) : Json :=
  .jArr (data.map record_toJson)

/-- Read back one scalar. -/
def val_fromJson : Json → Option Val
  | .jInt n => some (.vInt n)
  | .jStr s => some (.vStr s)
  | _ => Option.none

/-- Traverse a list with a fallible step, failing when any element fails. -/
def optList (f : α → Option β) : List α → Option (List β)
  | [] => some []
  | a :: as =>
      match f a, optList f as with
      | some b, some bs => some (b :: bs)
      | _, _ => Option.none

/-- Read back one record from a JSON object. -/
def record_fromJson : Json → Option Record
  | .jObj fields => optList (fun p => (val_fromJson p.2).map (fun v => (p.1, v))) fields
  | _ => Option.none

/-- Read back the record list from the catalog document. -/
def records_fromJson : Json → Option (List Record)
  | .jArr items => optList record_fromJson items
  | _ => Option.none

/-- `load_data` of `app.py` (and of `LinkBoard_v1.py`): when `DATA_PATH`
does not exist the function returns `[]` without touching the file, else it
returns `json.load`'s parse of the file. The filesystem is the one argument:
`Option.none` is the missing file. -/
def load_data (file : Option Json) : Json :=
  match file with
  | Option.none => Json.jArr []
  | some j => j

/-! ## Concrete inputs used by the claims' examples -/

/-- `{duration: 100, rate: 5}` of the spec's sort example. -/
def sortRec1 : Record := [("duration", Val.vInt 100), ("rate", Val.vInt 5)]

/-- `{duration: 100, rate: 2}` of the spec's sort example. -/
def sortRec2 : Record := [("duration", Val.vInt 100), ("rate", Val.vInt 2)]

/-- `{duration: 50, rate: 9}` of the spec's sort example. -/
def sortRec3 : Record := [("duration", Val.vInt 50), ("rate", Val.vInt 9)]

/-- A record of duration 2, before one of duration 1: an input that any
duration-ascending pass must reorder. -/
def durRec2 : Record := [("duration", Val.vInt 2)]

/-- A record of duration 1. -/
def durRec1 : Record := [("duration", Val.vInt 1)]

/-- C1, the claim as stated, at a concrete input: with the priority control
on "None" and the duration direction on "Min" (ascending), the sorting stage
returns the list unchanged, even though a duration-ascending pass would
reorder it — so a field with a non-"None" direction is *not* applied. -/
theorem c1_counterexample :
    sorted_output "None" "Min" "None" [durRec2, durRec1] = [durRec2, durRec1] ∧
      sort_values "duration" true [durRec2, durRec1] = [durRec1, durRec2] ∧
      [durRec2, durRec1] ≠ [durRec1, durRec2] := by
  refine ⟨by decide, by decide, by decide⟩

/-- C1 (amended): when the priority control is "None", `sort_instructions`
is built empty — the `if`/`elif` has no branch for "None" — so the sorting
stage returns the filtered list unchanged, whatever the two per-field
directions are. -/
theorem c1_none_primary_leaves_order (dur_order rate_order : String) (df : List Record) :
    sorted_output "None" dur_order rate_order df = df := rfl

/-- C2: the engine applies the priority list in reverse priority order —
for a two-entry list the lower-priority pass runs first and the
higher-priority (first-listed) pass runs last, each pass a stable sort —
and on the spec's three records, priority "Duration" with duration
descending ("Max") and rating ascending ("Min") yields exactly
`[{100,2}, {100,5}, {50,9}]`. -/
theorem c2_reverse_priority_stable_sort :
    (∀ (f1 f2 : String) (a1 a2 : Bool) (df : List Record),
        apply_sorting [(f1, a1), (f2, a2)] df = sort_values f1 a1 (sort_values f2 a2 df)) ∧
      sorted_output "Duration" "Max" "Min" [sortRec1, sortRec2, sortRec3] =
        [sortRec2, sortRec1, sortRec3] := by
  exact ⟨fun f1 f2 a1 a2 df => rfl, by decide⟩

/-- Filter criteria selecting actors `{A, B}`, with everything else inactive
(full-width sliders, empty selections, empty query). -/
def actorsCriteria : Criteria :=
  { duration_range := (0, 300), rating_range := (1, 10), core_cat_selected := [],
    cats_selected := [], actors_selected := ["A", "B"], studio_selected := [],
    positions_selected := [], tag_search := "" }

/-- A record whose stars are `{A, C}` (and an in-range rate). -/
def actorsRecord : Record :=
  [("star_1", Val.vStr "A"), ("star_2", Val.vStr "C"), ("rate", Val.vInt 5)]

/-- C3: the actor criterion passes a record exactly when *every* selected
actor is equal to one of the record's three star values (ALL-of semantics);
with `actors_selected = {A, B}` and stars `{A, C}` the full filter excludes
the record, even though `A` is present. -/
theorem c3_actors_all_of :
    (∀ (c : Criteria) (m : Record),
        actors_pass c m = true ↔ ∀ a ∈ c.actors_selected, Val.vStr a ∈ movie_actors m) ∧
      matches_filters actorsCriteria actorsRecord = false := by
  constructor
  · intro c m
    simp only [actors_pass, Bool.or_eq_true, List.isEmpty_iff, List.all_eq_true,
      List.any_eq_true, decide_eq_true_eq]
    constructor
    · rintro (h | h)
      · intro a ha; rw [h] at ha; cases ha
      · intro a ha
        obtain ⟨v, hv, he⟩ := h a ha
        exact he ▸ hv
    · intro h
      exact Or.inr fun a ha => ⟨Val.vStr a, h a ha, rfl⟩
  · decide

/-- Filter criteria selecting positions `{X, Y}`, with everything else
inactive. -/
def positionsCriteria : Criteria :=
  { duration_range := (0, 300), rating_range := (1, 10), core_cat_selected := [],
    cats_selected := [], actors_selected := [], studio_selected := [],
    positions_selected := ["X", "Y"], tag_search := "" }

/-- A record whose positions are `{X, Z}` (and an in-range rate). -/
def positionsRecord : Record :=
  [("pos_1", Val.vStr "X"), ("pos_2", Val.vStr "Z"), ("rate", Val.vInt 5)]

/-- C4: the position criterion passes a record exactly when the selection is
empty or *some* selected position is equal to one of the record's three
position values (ANY-of semantics); with `positions_selected = {X, Y}` and
positions `{X, Z}` the full filter keeps the record. -/
theorem c4_positions_any_of :
    (∀ (c : Criteria) (m : Record),
        positions_pass c m = true ↔
          (c.positions_selected = [] ∨
            ∃ p ∈ c.positions_selected, Val.vStr p ∈ movie_positions m)) ∧
      matches_filters positionsCriteria positionsRecord = true := by
  constructor
  · intro c m
    simp only [positions_pass, Bool.or_eq_true, List.isEmpty_iff, List.any_eq_true,
      decide_eq_true_eq]
    constructor
    · rintro (h | ⟨p, hp, v, hv, he⟩)
      · exact Or.inl h
      · exact Or.inr ⟨p, hp, he ▸ hv⟩
    · rintro (h | ⟨p, hp, hv⟩)
      · exact Or.inl h
      · exact Or.inr ⟨p, hp, Val.vStr p, hv, rfl⟩
  · decide

/-- A record tagged `"Horror Classic 1990s"`. -/
def tagsRecord1990s : Record := [("general_tags", Val.vStr "Horror Classic 1990s")]

/-- A record tagged only `"Horror Classic"`. -/
def tagsRecordClassic : Record := [("general_tags", Val.vStr "Horror Classic")]

/-- C5: the tag criterion passes a record exactly when every token of the
query — split on commas, trimmed, lower-cased, empties dropped — occurs as a
substring of the record's lower-cased `general_tags`; an empty query passes
every record; and `"horror, 1990"` matches tags `"Horror Classic 1990s"`
but not `"Horror Classic"`. -/
theorem c5_tag_query_tokens :
    (∀ (q : String) (m : Record),
        tag_pass q m = true ↔ ∀ t ∈ tag_tokens q, isInfixB t (movie_tags m) = true) ∧
      (∀ m : Record, tag_pass "" m = true) ∧
      tag_pass "horror, 1990" tagsRecord1990s = true ∧
      tag_pass "horror, 1990" tagsRecordClassic = false := by
  refine ⟨?_, fun m => rfl, by decide, by decide⟩
  intro q m
  by_cases hq : q = ""
  · subst hq
    have ht : tag_tokens "" = [] := rfl
    simp [tag_pass, ht]
  · simp [tag_pass, hq, List.all_eq_true]

/-- Filter criteria with every selection empty, the query empty, and the
sliders at full width (duration 0–300, rating 1–10). -/
def fullRangeCriteria : Criteria :=
  { duration_range := (0, 300), rating_range := (1, 10), core_cat_selected := [],
    cats_selected := [], actors_selected := [], studio_selected := [],
    positions_selected := [], tag_search := "" }

/-- A record whose `duration` is a non-numeric string but whose `rate` is a
plain number. -/
def badDurationRecord : Record :=
  [("duration", Val.vStr "abc"), ("rate", Val.vInt 5)]

/-- A record whose `rate` is a non-numeric string but whose `duration` is a
plain number. -/
def badRateRecord : Record :=
  [("duration", Val.vInt 100), ("rate", Val.vStr "n/a")]

/-- C6: each of the two coercions independently — whenever a record's
`duration` value fails integer parsing it is coerced to 0 and the duration
range criterion is evaluated against 0, and whenever its `rate` value fails
float parsing it is coerced to 0 and the rating range criterion is evaluated
against 0; either field alone may be the non-numeric one. No parse error
propagates: the embedded predicates are total, the `except ValueError`
branches being the `Option.none` cases. -/
theorem c6_nonnumeric_coerced_to_zero :
    (∀ (c : Criteria) (m : Record) (s : String),
        getVal m "duration" (Val.vInt 0) = Val.vStr s → pyIntParse s = Option.none →
        duration_of m = 0 ∧
          (duration_pass c m = true ↔ (c.duration_range.1 ≤ 0 ∧ 0 ≤ c.duration_range.2))) ∧
      (∀ (c : Criteria) (m : Record) (t : String),
        getVal m "rate" (Val.vInt 0) = Val.vStr t → pyFloatParse t = Option.none →
        rate_of m = 0 ∧
          (rating_pass c m = true ↔
            ((c.rating_range.1 : ℚ) ≤ 0 ∧ (0 : ℚ) ≤ (c.rating_range.2 : ℚ)))) := by
  constructor
  · intro c m s hd hds
    have h1 : duration_of m = 0 := by simp [duration_of, hd, pyInt, hds]
    exact ⟨h1, by simp [duration_pass, h1]⟩
  · intro c m t hr hrs
    have h2 : rate_of m = 0 := by simp [rate_of, hr, pyFloat, hrs]
    exact ⟨h2, by simp [rating_pass, h2]⟩

/-- C6 at concrete inputs, one per coercion: a record whose `duration` alone
is non-numeric (`"abc"`, rate 5) and a record whose `rate` alone is
non-numeric (`"n/a"`, duration 100), under full-width sliders. -/
theorem c6_witness :
    (duration_of badDurationRecord = 0 ∧
      (duration_pass fullRangeCriteria badDurationRecord = true ↔
        (fullRangeCriteria.duration_range.1 ≤ 0 ∧ 0 ≤ fullRangeCriteria.duration_range.2))) ∧
      (rate_of badRateRecord = 0 ∧
        (rating_pass fullRangeCriteria badRateRecord = true ↔
          ((fullRangeCriteria.rating_range.1 : ℚ) ≤ 0 ∧
            (0 : ℚ) ≤ (fullRangeCriteria.rating_range.2 : ℚ)))) :=
  ⟨c6_nonnumeric_coerced_to_zero.1 fullRangeCriteria badDurationRecord "abc"
      rfl (by decide),
    c6_nonnumeric_coerced_to_zero.2 fullRangeCriteria badRateRecord "n/a"
      rfl (by decide)⟩

/-- A record with no fields at all: its `rate` is coerced to 0, below the
rating slider's floor of 1, so the always-active range criteria drop it. -/
def ratelessRecord : Record := []

/-- C7, the claim as stated, at a concrete input: with every selection-set
criterion and the tag query empty (and the sliders at full width), the
filter still drops the record whose coerced rate 0 lies under the rating
floor — the output differs from the input. -/
theorem c7_counterexample :
    filtered fullRangeCriteria [ratelessRecord] ≠ [ratelessRecord] := by decide

/-- C7 (amended): with every selection-set criterion and the tag query
empty, and every record's coerced duration and rate inside the two ranges,
the filter is the identity; and for every criteria assignment the filter
returns a sublist (subset in original relative order) of its input. -/
theorem c7_filter_identity_and_sublist (c : Criteria) (l : List Record)
    (hsel : c.core_cat_selected = [] ∧ c.cats_selected = [] ∧ c.actors_selected = [] ∧
      c.positions_selected = [] ∧ c.studio_selected = [] ∧ c.tag_search = "")
    (hrange : ∀ m ∈ l, duration_pass c m = true ∧ rating_pass c m = true) :
    filtered c l = l ∧
      ∀ (c2 : Criteria) (l2 : List Record), (filtered c2 l2).Sublist l2 := by
  obtain ⟨h1, h2, h3, h4, h5, h6⟩ := hsel
  refine ⟨?_, fun c2 l2 => List.filter_sublist l2⟩
  rw [filtered, List.filter_eq_self]
  intro m hm
  obtain ⟨hd, hr⟩ := hrange m hm
  simp [matches_filters, hd, hr, core_pass, cats_pass, actors_pass, positions_pass,
    studio_pass, tag_pass, h1, h2, h3, h4, h5, h6]

/-- A record inside both ranges. -/
def inRangeRecord : Record := [("duration", Val.vInt 100), ("rate", Val.vInt 5)]

/-- C7 (amended) at a concrete input. -/
theorem c7_witness :
    filtered fullRangeCriteria [inRangeRecord] = [inRangeRecord] ∧
      ∀ (c2 : Criteria) (l2 : List Record), (filtered c2 l2).Sublist l2 :=
  c7_filter_identity_and_sublist fullRangeCriteria [inRangeRecord]
    ⟨rfl, rfl, rfl, rfl, rfl, rfl⟩ (by decide)

/-- C8: a missing backing file loads as the empty catalog — `load_data` on
the absent file returns the JSON empty array, which denotes the empty record
list; being a total function, it raises nothing. -/
theorem c8_missing_file_loads_empty :
    load_data Option.none = Json.jArr [] ∧
      records_fromJson (load_data Option.none) = some ([] : List Record) :=
  ⟨rfl, rfl⟩

/-- Traversing a mapped list succeeds element by element when the step
inverts the map. -/
theorem optList_map_section (f : α → Option β) (g : β → α)
    (hfg : ∀ b, f (g b) = some b) (l : List β) : optList f (l.map g) = some l := by
  induction l with
  | nil => rfl
  | cons b bs ih => simp [optList, hfg, ih]

/-- One record survives serialisation to a JSON object and parsing back. -/
theorem record_fromJson_toJson (r : Record) : record_fromJson (record_toJson r) = some r := by
  show optList _ (r.map _) = some r
  refine optList_map_section _ _ (fun p => ?_) r
  obtain ⟨k, v⟩ := p
  cases v <;> rfl

/-- C9: any catalog document that loads as record list `l` is reproduced by
saving `l` — the saved document parses back to the very same records,
field for field, in the same order (concrete formatting is outside the
`Json` abstraction, exactly the "literal JSON formatting" the claim sets
aside). -/
theorem c9_save_load_round_trip (f : Json) (l : List Record)
    (_h : records_fromJson f = some l) :
    records_fromJson (save_data l) = some l := by
  show optList record_fromJson (l.map record_toJson) = some l
  exact optList_map_section _ _ record_fromJson_toJson l

/-- A one-record catalog document. -/
def catalogDoc : Json :=
  Json.jArr [Json.jObj [("duration", Json.jInt 100), ("rate", Json.jStr "8.5")]]

/-- The records `catalogDoc` denotes. -/
def catalogRecords : List Record :=
  [[("duration", Val.vInt 100), ("rate", Val.vStr "8.5")]]

/-- C9 at a concrete input. -/
theorem c9_witness :
    records_fromJson (save_data catalogRecords) = some catalogRecords :=
  c9_save_load_round_trip catalogDoc catalogRecords rfl

/-- The empty needle occurs in every haystack. -/
theorem isInfixB_nil (h : List Char) : isInfixB [] h = true := by
  cases h with
  | nil => rfl
  | cons c t => rfl

/-- Dropping the elements a filter rejects does not change `all` when the
rejected elements satisfy the tested property anyway. -/
theorem all_map_filter (p : α → Bool) (g : α → β) (f : β → Bool)
    (h : ∀ a, p a = false → f (g a) = true) (l : List α) :
    ((l.filter p).map g).all f = (l.map g).all f := by
  induction l with
  | nil => rfl
  | cons a as ih =>
    cases hp : p a with
    | true => simp [List.filter_cons, hp, ih]
    | false => simp [List.filter_cons, hp, ih, h a hp]

/-- C10: the current app's tag criterion (which drops empty tokens) and the
previous version's (which keeps them) accept exactly the same records: an
empty token, once trimmed and lower-cased, is still empty, and the empty
string is a substring of every `general_tags` value. -/
theorem c10_tag_filter_equiv (q : String) (m : Record) : tag_pass q m = tag_passV1 q m := by
  by_cases hq : q = ""
  · subst hq; rfl
  · simp only [tag_pass, tag_passV1, if_neg hq, tag_tokens, tag_tokensV1]
    refine all_map_filter _ _ _ (fun t ht => ?_) (pySplitComma q)
    have hempty : pyStripL t = [] := by
      simpa [List.isEmpty_iff] using ht
    rw [hempty]
    exact isInfixB_nil (movie_tags m)
